import Mathlib

/-!
Verification of the persistence and backup subsystem of the networkuptime
Electron application (src/main.js).

The program keeps an in-memory sql.js (SQLite) database with a single table

  CREATE TABLE IF NOT EXISTS network_log (
      id INTEGER PRIMARY KEY AUTOINCREMENT,
      timestamp TEXT,
      status TEXT);

together with a JavaScript global counter `lastLogId`, persists the database
image to a canonical file `dbPath` and to timestamp-named archive files in
`backupDir`, and serves IPC handlers `load-logs`, `insert-log`, `clear-logs`
and `export-log-csv`.

Embedding choices, all taken from the source semantics:

* A `Database` is the SQLite state that matters to this program: the rows of
  `network_log` (in rowid order) and the `sqlite_sequence` counter `seq` for
  the table.  Because the column is declared `INTEGER PRIMARY KEY
  AUTOINCREMENT`, an INSERT assigns rowid `max(largest rowid in the table,
  sqlite_sequence) + 1` and updates `sqlite_sequence` to it; `DELETE FROM
  network_log` empties the table but does NOT reset `sqlite_sequence`; and
  `db.export()` serializes the whole file image, `sqlite_sequence` included.
  A freshly constructed `new sql.Database()` followed by the CREATE TABLE
  statement is the empty table with no sequence row, i.e. `seq = 0`.

* The byte image produced by `db.export()` is modelled as a `List Token`:
  a flat buffer holding the sequence counter followed by the row triples.
  The `new sql.Database(filebuffer)` constructor only stores the bytes —
  SQLite opens lazily and does not validate them — so the load path's
  try/catch can catch nothing from it.  The decode (`deserialize`) is
  forced by the first statement executed against the stored bytes, the
  `CREATE TABLE IF NOT EXISTS` at main.js line 90, which sits OUTSIDE that
  try/catch: on a malformed buffer it raises SQLITE_NOTADB ("file is not a
  database"), which escapes `initializeDatabase` and reaches the catch in
  `app.whenReady`, which calls `app.quit()`.

* The filesystem is an association list from paths to buffers;
  `fs.writeFileSync` overwrites whatever is at the path.

* `performBackup` swallows ENOENT write errors (main.js lines 38-43) and
  rethrows any other write error; disk behaviour is an explicit parameter
  where a claim needs failure cases.
-/

/-- One unit of a serialized database image. -/
inductive Token where
  | num (n : Nat)
  | str (s : String)
deriving Repr, DecidableEq

/-- A byte buffer, as produced by `db.export()` / consumed by `new sql.Database(buf)`. -/
abbrev Buf := List Token

/-- A row of the `network_log` table. -/
structure LogEntry where
  id : Nat
  timestamp : String
  status : String
deriving Repr, DecidableEq

/-- The sql.js database state relevant to this program: the `network_log`
rows in rowid order and the `sqlite_sequence` counter for the table
(0 when no sequence row exists). -/
structure Database where
  rows : List LogEntry
  seq : Nat
deriving Repr, DecidableEq

/-- `new sql.Database()` followed by the `CREATE TABLE IF NOT EXISTS`
statement: empty table, no sequence row. -/
def Database.fresh : Database := ⟨[], 0⟩

/-- `SELECT MAX(id)` over a row list: 0 stands for the NULL result on an
empty table (the callers in main.js map NULL to 0). -/
def maxIds : List LogEntry → Nat
  | [] => 0
  | e :: es => max e.id (maxIds es)

/-- Rowid assigned by `INSERT INTO network_log` under AUTOINCREMENT:
one larger than the largest rowid that ever existed in the table. -/
def nextId (db : Database) : Nat :=
  max (maxIds db.rows) db.seq + 1

/-- `INSERT INTO network_log (timestamp, status) VALUES (?, ?)`:
appends the row with the AUTOINCREMENT rowid and bumps `sqlite_sequence`. -/
def insertRow (db : Database) (ts st : String) : Database × Nat :=
  let i := nextId db
  (⟨db.rows ++ [⟨i, ts, st⟩], i⟩, i)

/-- `DELETE FROM network_log;` empties the table; `sqlite_sequence` is
untouched (SQLite never resets it on DELETE). -/
def deleteAllRows (db : Database) : Database :=
  ⟨[], db.seq⟩

/-- Encoding of the row list inside the exported image. -/
def encodeRows : List LogEntry → Buf
  | [] => []
  | e :: es => .num e.id :: .str e.timestamp :: .str e.status :: encodeRows es

/-- `db.export()`: the single-file image of the database, holding the
`sqlite_sequence` counter and every row of `network_log`. -/
def serialize (db : Database) : Buf :=
  .num db.seq :: encodeRows db.rows

/-- Decoder for the row section of an image; `none` on malformed input. -/
def decodeRows : Buf → Option (List LogEntry)
  | [] => some []
  | .num i :: .str ts :: .str st :: rest =>
      (decodeRows rest).map (fun es => ⟨i, ts, st⟩ :: es)
  | _ => none

/-- Decoding of a stored image as SQLite performs it when the bytes are
first accessed.  `new sql.Database(filebuffer)` itself stores the buffer
without reading it; the first statement run against it — the
`CREATE TABLE IF NOT EXISTS` at main.js line 90 — forces this decode.
`none` models the SQLITE_NOTADB error raised on a malformed buffer. -/
def deserialize : Buf → Option Database
  | .num s :: rest => (decodeRows rest).map (fun es => ⟨es, s⟩)
  | _ => none

/-- The filesystem: paths mapped to buffers, most recent write first. -/
abbrev FS := List (String × Buf)

def emptyFS : FS := []

/-- Read a file; `none` when the path is absent (readFileSync throws ENOENT). -/
def fsRead : FS → String → Option Buf
  | [], _ => none
  | (p, b) :: rest, q => if p = q then some b else fsRead rest q

/-- Drop every binding for a path. -/
def fsErase : FS → String → FS
  | [], _ => []
  | (p, b) :: rest, q => if p = q then fsErase rest q else (p, b) :: fsErase rest q

/-- `fs.writeFileSync`: create or silently overwrite the file at `p`. -/
def fsWrite (fs : FS) (p : String) (b : Buf) : FS :=
  (p, b) :: fsErase fs p

/-- All paths currently present. -/
def fsPaths (fs : FS) : List String :=
  fs.map Prod.fst

/-- Canonical persistent database file (main.js line 9). -/
def dbPath : String := "userData/network_log.db"

/-- Archival backup directory (main.js line 11). -/
def backupDir : String := "userData/network_backups"

/-- The mutable process state: the filesystem, the global `db` reference
(`none` before initialization) and the global `lastLogId` counter. -/
structure SysState where
  fs : FS
  db : Option Database
  lastLogId : Nat
deriving Repr, DecidableEq

/-- Result shape of the mutation IPC handlers: `{ success, error? }`.
Note there is no id field: `insert-log` returns only a success flag. -/
structure HandlerResult where
  success : Bool
  error : Option String
deriving Repr, DecidableEq

/-- Load path of `initializeDatabase` (main.js lines 78-111): read the
canonical file.  The try/catch at lines 79-87 only ever catches the
readFileSync throw for an absent file (the database constructor stores
the bytes without validating them), in which case a fresh database is
created.  The `db.run(CREATE TABLE IF NOT EXISTS ...)` at line 90 sits
outside that catch: on a fresh or valid database it succeeds and ensures
the table, but on a malformed buffer it raises SQLITE_NOTADB
("file is not a database"), which escapes `initializeDatabase`.  On
success, `lastLogId` is recovered from `SELECT MAX(id)`. -/
def initializeDatabase (fs : FS) : Except String (Database × Nat) :=
  match fsRead fs dbPath with
  | none => .ok (Database.fresh, 0)
  | some buf =>
      match deserialize buf with
      | none => .error "file is not a database"
      | some d => .ok (d, if d.rows.isEmpty then 0 else maxIds d.rows)

/-- `app.whenReady` startup (main.js lines 166-183): run
`initializeDatabase` and proceed, or catch the initialization error, log
it and quit (`app.quit()`, modelled as `none`). -/
def appStartup (fs : FS) : Option SysState :=
  match initializeDatabase fs with
  | .ok (d, n) => some ⟨fs, some d, n⟩
  | .error _ => none

/-- The running state after a successful startup against `fs`; when
startup aborts no handler ever runs, so the uninitialized state (global
`db` never set) stands in. -/
def initState (fs : FS) : SysState :=
  (appStartup fs).getD ⟨fs, none, 0⟩

/-- `performBackup(filePath)` with a healthy disk: export the database and
overwrite `filePath`; throws when `db` is not initialized. -/
def performBackup (s : SysState) (filePath : String) : Except String FS :=
  match s.db with
  | none => .error "Database not initialized. Cannot perform backup."
  | some db => .ok (fsWrite s.fs filePath (serialize db))

/-- IPC handler `insert-log` (main.js lines 223-248): insert the row, set
`lastLogId` from `SELECT MAX(id)`, do not touch the filesystem, and return
`{ success: true }` (no id). -/
def insertLog (s : SysState) (ts st : String) : SysState × HandlerResult :=
  match s.db with
  | none => (s, ⟨false, some "Database not ready."⟩)
  | some db =>
      let db' := (insertRow db ts st).1
      ({ s with db := some db', lastLogId := maxIds db'.rows }, ⟨true, none⟩)

/-- IPC handler `clear-logs` (main.js lines 250-263): delete all rows, reset
`lastLogId` to 0, and immediately flush the empty state to `dbPath`. -/
def clearLogs (s : SysState) : SysState × HandlerResult :=
  match s.db with
  | none => (s, ⟨false, some "Database not ready."⟩)
  | some db =>
      let db' := deleteAllRows db
      let fs' := fsWrite s.fs dbPath (serialize db')
      (⟨fs', some db', 0⟩, ⟨true, none⟩)

/-- Insertion step of descending insertion sort by id. -/
def insertDescBy (e : LogEntry) : List LogEntry → List LogEntry
  | [] => [e]
  | x :: xs => if e.id ≤ x.id then x :: insertDescBy e xs else e :: x :: xs

/-- `ORDER BY id DESC`. -/
def sortDescById : List LogEntry → List LogEntry
  | [] => []
  | x :: xs => insertDescBy x (sortDescById xs)

/-- Insertion step of ascending insertion sort by id. -/
def insertAscBy (e : LogEntry) : List LogEntry → List LogEntry
  | [] => [e]
  | x :: xs => if x.id ≤ e.id then x :: insertAscBy e xs else e :: x :: xs

/-- `ORDER BY id ASC`. -/
def sortAscById : List LogEntry → List LogEntry
  | [] => []
  | x :: xs => insertAscBy x (sortAscById xs)

/-- IPC handler `load-logs` (main.js lines 202-221): all rows, newest id
first; empty list when the database is not ready or holds no rows. -/
def loadLogs (s : SysState) : List LogEntry :=
  match s.db with
  | none => []
  | some db => sortDescById db.rows

/-- One CSV data row: `id,"timestamp",status` (main.js line 275) — exactly
the timestamp field is double-quoted. -/
def csvRow (e : LogEntry) : String :=
  toString e.id ++ ",\"" ++ e.timestamp ++ "\"," ++ e.status

/-- CSV content built by `export-log-csv` (main.js lines 265-280): header
then one row per entry in ascending id order, joined by newlines; `none`
when there are no rows ("No logs to export."). -/
def exportCsvContent (db : Database) : Option String :=
  let sorted := sortAscById db.rows
  if sorted.isEmpty then none
  else some (String.intercalate "\n"
    ("ID,Timestamp_ISO,Status" :: sorted.map csvRow))

/-- `now.toISOString().replace(/[:.]/g, '-')` (main.js line 123): every
colon and period of the capture timestamp becomes a dash. -/
def isoSafe (iso : String) : String :=
  String.mk (iso.toList.map (fun c => if c = ':' ∨ c = '.' then '-' else c))

/-- Archive file name for a capture timestamp (main.js line 129). -/
def archiveFileName (iso : String) : String :=
  "network_log_backup_" ++ isoSafe iso ++ ".db"

/-- Full archive path: `path.join(backupDir, backupFileName)`. -/
def archivePath (iso : String) : String :=
  backupDir ++ "/" ++ archiveFileName iso

/-- Outcome of one `writeFileSync` call as seen through `performBackup`:
the write succeeds, fails with ENOENT, or fails with some other error. -/
inductive Disk where
  | ok
  | enoent
  | ioerr
deriving Repr, DecidableEq

/-- `performBackup` with an explicit disk outcome (main.js lines 25-44):
a successful write overwrites the file; an ENOENT failure is swallowed —
the function returns normally with NOTHING written; any other failure is
rethrown as `Backup/Export failed`. -/
def performBackupD (s : SysState) (filePath : String) (d : Disk) :
    Except String FS :=
  match s.db with
  | none => .error "Database not initialized. Cannot perform backup."
  | some db =>
      match d with
      | .ok => .ok (fsWrite s.fs filePath (serialize db))
      | .enoent => .ok s.fs
      | .ioerr => .error "Backup/Export failed"

/-- One firing of the hourly timer: the capture time and how the disk
behaves for the flush write and for the archive write. -/
structure Tick where
  nowIso : String
  flushDisk : Disk
  archiveDisk : Disk
deriving Repr, DecidableEq

/-- A tick with a healthy disk. -/
def Tick.good (iso : String) : Tick := ⟨iso, .ok, .ok⟩

/-- What one scheduled tick did. -/
inductive TickOutcome where
  | skipped
  | flushFailed
  | archiveFailed
  | archived (fileName : String)
deriving Repr, DecidableEq

/-- `autoHourlyBackup` (main.js lines 119-145): exit if `db` is not ready;
flush to `dbPath` — an error here escapes the async function, so the
archive step is not reached; otherwise archive to the timestamped path
inside a try/catch, so an archive error is caught and only logged. -/
def autoHourlyBackup (s : SysState) (t : Tick) : SysState × TickOutcome :=
  match s.db with
  | none => (s, .skipped)
  | some _ =>
      match performBackupD s dbPath t.flushDisk with
      | .error _ => (s, .flushFailed)
      | .ok fs1 =>
          let s1 : SysState := { s with fs := fs1 }
          match performBackupD s1 (archivePath t.nowIso) t.archiveDisk with
          | .error _ => (s1, .archiveFailed)
          | .ok fs2 => ({ s with fs := fs2 }, .archived (archiveFileName t.nowIso))

/-- The `setInterval` scheduler: each elapsed interval fires
`autoHourlyBackup` once, and a tick whose callback failed does not stop the
timer — the remaining ticks still run. -/
def runSched (s : SysState) : List Tick → SysState × List TickOutcome
  | [] => (s, [])
  | t :: ts =>
      let (s', o) := autoHourlyBackup s t
      let (s'', os) := runSched s' ts
      (s'', o :: os)

/-- Store-lifetime operations for the id-monotonicity claims: an insert, a
bulk clear, or a flush of the canonical file followed by a full reload
through `initializeDatabase`. -/
inductive Op where
  | ins (ts st : String)
  | clear
  | flushReload
deriving Repr, DecidableEq

/-- Apply one operation; the second component lists the ids the operation
assigned (one for a successful insert, none otherwise). -/
def stepOp (s : SysState) : Op → SysState × List Nat
  | .ins ts st =>
      match s.db with
      | none => (s, [])
      | some db =>
          let (db', i) := insertRow db ts st
          ({ s with db := some db', lastLogId := maxIds db'.rows }, [i])
  | .clear => ((clearLogs s).1, [])
  | .flushReload =>
      match s.db with
      | none => (s, [])
      | some db =>
          let fs' := fsWrite s.fs dbPath (serialize db)
          (initState fs', [])

/-- Run a sequence of operations, collecting every id assigned along the way. -/
def runOps (s : SysState) : List Op → SysState × List Nat
  | [] => (s, [])
  | op :: ops =>
      let (s', asg) := stepOp s op
      let (s'', rest) := runOps s' ops
      (s'', asg ++ rest)

/-- Fold the `insert-log` handler over a list of (timestamp, status) pairs. -/
def applyInserts (s : SysState) : List (String × String) → SysState
  | [] => s
  | (ts, st) :: ps => applyInserts (insertLog s ts st).1 ps

/-- The database behind the global reference, defaulting to a fresh one. -/
def dbOf (s : SysState) : Database := s.db.getD Database.fresh

/-- Decidable form of the AUTOINCREMENT invariant: every rowid in the table
is at most the `sqlite_sequence` value (vacuous before initialization). -/
def dbInv (s : SysState) : Bool :=
  match s.db with
  | none => true
  | some d => decide (maxIds d.rows ≤ d.seq)

/-- The `sqlite_sequence` value of the live database (0 before init). -/
def seqOf (s : SysState) : Nat :=
  match s.db with
  | none => 0
  | some d => d.seq

/-- Decidable statement that the global `lastLogId` agrees with
`SELECT MAX(id)` over the live database (false before initialization). -/
def lastInv (s : SysState) : Bool :=
  match s.db with
  | none => false
  | some d => decide (s.lastLogId = if d.rows.isEmpty then 0 else maxIds d.rows)

/-- Timestamp of the first probe result in the spec scenario. -/
def tsA : String := "2024-01-01T00:00:00Z"

/-- Timestamp of the second probe result in the spec scenario. -/
def tsB : String := "2024-01-01T00:05:00Z"

/-- The spec scenario state: a freshly initialized empty store after
inserting (tsA, DOWN) and then (tsB, UP). -/
def scenState : SysState :=
  (insertLog (insertLog (initState emptyFS) tsA "DOWN").1 tsB "UP").1

/-- A capture time used for same-millisecond archive collisions. -/
def isoT : String := "2024-01-01T02:00:00.000Z"

/-- One insert into a fresh store, before the first archive call. -/
def arcS1 : SysState := (insertLog (initState emptyFS) tsA "DOWN").1

/-- State after the first flush+archive tick at `isoT`. -/
def arcS2 : SysState := (autoHourlyBackup arcS1 (Tick.good isoT)).1

/-- A second insert between the two archive calls. -/
def arcS3 : SysState := (insertLog arcS2 tsB "UP").1

/-- State after the second flush+archive tick, again at `isoT`. -/
def arcS4 : SysState := (autoHourlyBackup arcS3 (Tick.good isoT)).1

/-- A buffer that is not a valid database image. -/
def corruptBuf : Buf := [Token.str "corrupt"]

/-- A filesystem whose canonical database file exists but is malformed. -/
def corruptFS : FS := fsWrite emptyFS dbPath corruptBuf

/-! ### Helper lemmas -/

theorem decodeRows_encodeRows (rows : List LogEntry) :
    decodeRows (encodeRows rows) = some rows := by
  induction rows with
  | nil => rfl
  | cons e es ih => simp [encodeRows, decodeRows, ih]

theorem deserialize_serialize (db : Database) :
    deserialize (serialize db) = some db := by
  simp [serialize, deserialize, decodeRows_encodeRows]

theorem fsRead_fsErase_ne (fs : FS) (p q : String) (h : p ≠ q) :
    fsRead (fsErase fs p) q = fsRead fs q := by
  induction fs with
  | nil => rfl
  | cons kv rest ih =>
      obtain ⟨r, b⟩ := kv
      by_cases hr : r = p
      · subst hr
        simp [fsErase, fsRead, h, ih]
      · simp [fsErase, fsRead, hr, ih]

theorem fsRead_fsWrite_self (fs : FS) (p : String) (b : Buf) :
    fsRead (fsWrite fs p b) p = some b := by
  simp [fsWrite, fsRead]

theorem fsRead_fsWrite_ne (fs : FS) (p q : String) (b : Buf) (h : p ≠ q) :
    fsRead (fsWrite fs p b) q = fsRead fs q := by
  simp [fsWrite, fsRead, h, fsRead_fsErase_ne]

theorem maxIds_append_single (xs : List LogEntry) (e : LogEntry) :
    maxIds (xs ++ [e]) = max (maxIds xs) e.id := by
  induction xs with
  | nil => simp [maxIds]
  | cons x xs ih => simp [maxIds, ih]; omega

theorem id_le_maxIds {e : LogEntry} {xs : List LogEntry} (h : e ∈ xs) :
    e.id ≤ maxIds xs := by
  induction xs with
  | nil => cases h
  | cons x xs ih =>
      rcases List.mem_cons.mp h with h1 | h2
      · subst h1; simp [maxIds]
      · have := ih h2
        simp [maxIds]; omega

theorem string_sandwich_inj (u m s x y : String)
    (h : u ++ (m ++ x ++ s) = u ++ (m ++ y ++ s)) : x = y := by
  have hd := congrArg String.data h
  simp only [String.data_append] at hd
  have h1 := List.append_cancel_left hd
  have h2 := List.append_cancel_right h1
  have h3 := List.append_cancel_left h2
  cases x; cases y; exact congrArg String.mk (by simpa using h3)

theorem archivePath_eq_sandwich (iso : String) :
    archivePath iso =
      (backupDir ++ "/") ++ ("network_log_backup_" ++ isoSafe iso ++ ".db") := by
  simp [archivePath, archiveFileName, String.append_assoc]

theorem archivePath_inj {a b : String} (h : archivePath a = archivePath b) :
    isoSafe a = isoSafe b := by
  rw [archivePath_eq_sandwich, archivePath_eq_sandwich] at h
  exact string_sandwich_inj _ _ _ _ _ h

theorem length_archivePath (iso : String) :
    (archivePath iso).length = 47 + (isoSafe iso).length := by
  have h1 : (backupDir).length = 24 := rfl
  have h2 : ("/" : String).length = 1 := rfl
  have h3 : ("network_log_backup_" : String).length = 19 := rfl
  have h4 : (".db" : String).length = 3 := rfl
  simp [archivePath, archiveFileName, String.length_append, h1, h2, h3, h4]
  omega

theorem archivePath_ne_dbPath (iso : String) : archivePath iso ≠ dbPath := by
  intro h
  have hl := congrArg String.length h
  rw [length_archivePath] at hl
  have : dbPath.length = 23 := rfl
  omega

theorem initializeDatabase_of_serialized (fs : FS) (d : Database) :
    initializeDatabase (fsWrite fs dbPath (serialize d)) =
      .ok (d, if d.rows.isEmpty then 0 else maxIds d.rows) := by
  simp [initializeDatabase, fsRead_fsWrite_self, deserialize_serialize]

theorem initState_of_serialized (fs : FS) (d : Database) :
    initState (fsWrite fs dbPath (serialize d)) =
      ⟨fsWrite fs dbPath (serialize d), some d,
        if d.rows.isEmpty then 0 else maxIds d.rows⟩ := by
  simp [initState, appStartup, initializeDatabase_of_serialized]

theorem stepOp_spec (s : SysState) (op : Op) (h : dbInv s = true) :
    dbInv (stepOp s op).1 = true ∧
    seqOf s ≤ seqOf (stepOp s op).1 ∧
    ∀ a ∈ (stepOp s op).2, seqOf s < a ∧ a ≤ seqOf (stepOp s op).1 := by
  cases op with
  | ins ts st =>
      cases hdb : s.db with
      | none => simp [stepOp, hdb, dbInv, seqOf]
      | some d =>
          have hle : maxIds d.rows ≤ d.seq := by
            have := h
            simp [dbInv, hdb, decide_eq_true_iff] at this
            exact this
          have hmax : maxIds (d.rows ++ [⟨nextId d, ts, st⟩]) = nextId d := by
            rw [maxIds_append_single]
            simp [nextId]
            omega
          refine ⟨?_, ?_, ?_⟩
          · simp [stepOp, hdb, dbInv, insertRow, hmax, decide_eq_true_iff]
          · simp [stepOp, hdb, seqOf, insertRow, nextId]
            omega
          · intro a ha
            simp [stepOp, hdb, insertRow] at ha
            subst ha
            simp [seqOf, hdb, stepOp, insertRow, nextId]
            omega
  | clear =>
      cases hdb : s.db with
      | none => simp [stepOp, clearLogs, hdb, dbInv, seqOf]
      | some d =>
          refine ⟨?_, ?_, ?_⟩
          · simp [stepOp, clearLogs, hdb, dbInv, deleteAllRows, maxIds]
          · simp [stepOp, clearLogs, hdb, seqOf, deleteAllRows]
          · intro a ha
            simp [stepOp, clearLogs, hdb] at ha
  | flushReload =>
      cases hdb : s.db with
      | none => simp [stepOp, hdb, dbInv, seqOf]
      | some d =>
          have hload := initState_of_serialized s.fs d
          refine ⟨?_, ?_, ?_⟩
          · simp [stepOp, hdb, hload, dbInv] at h ⊢
            exact h
          · simp [stepOp, hdb, hload, seqOf]
          · intro a ha
            simp [stepOp, hdb, hload] at ha

theorem runOps_spec (ops : List Op) (s : SysState) (h : dbInv s = true) :
    dbInv (runOps s ops).1 = true ∧
    seqOf s ≤ seqOf (runOps s ops).1 ∧
    (∀ a ∈ (runOps s ops).2, seqOf s < a ∧ a ≤ seqOf (runOps s ops).1) ∧
    (runOps s ops).2.Pairwise (· < ·) := by
  induction ops generalizing s with
  | nil => simpa [runOps] using h
  | cons op ops ih =>
      obtain ⟨hinv1, hseq1, hasg1⟩ := stepOp_spec s op h
      obtain ⟨hinv2, hseq2, hasg2, hpw2⟩ := ih (stepOp s op).1 hinv1
      refine ⟨?_, ?_, ?_, ?_⟩
      · simpa [runOps] using hinv2
      · simp only [runOps]
        omega
      · intro a ha
        simp only [runOps, List.mem_append] at ha
        rcases ha with ha | ha
        · obtain ⟨h1, h2⟩ := hasg1 a ha
          simp only [runOps]
          constructor
          · exact h1
          · omega
        · obtain ⟨h1, h2⟩ := hasg2 a ha
          simp only [runOps]
          constructor
          · omega
          · exact h2
      · simp only [runOps]
        rw [List.pairwise_append]
        refine ⟨?_, hpw2, ?_⟩
        · cases op with
          | ins ts st =>
              cases hdb : s.db with
              | none => simp [stepOp, hdb]
              | some d => simp [stepOp, hdb]
          | clear => simp [stepOp]
          | flushReload =>
              cases hdb : s.db with
              | none => simp [stepOp, hdb]
              | some d => simp [stepOp, hdb]
        · intro a ha b hb
          obtain ⟨_, h2⟩ := hasg1 a ha
          obtain ⟨h3, _⟩ := hasg2 b hb
          omega

theorem applyInserts_lastInv (l : List (String × String)) (s : SysState)
    (h : lastInv s = true) : lastInv (applyInserts s l) = true := by
  induction l generalizing s with
  | nil => simpa [applyInserts] using h
  | cons p ps ih =>
      obtain ⟨ts, st⟩ := p
      cases hdb : s.db with
      | none => simp [lastInv, hdb] at h
      | some d =>
          apply ih
          simp [insertLog, hdb, lastInv, insertRow]

theorem runSched_length (ts : List Tick) (s : SysState) :
    ((runSched s ts).2).length = ts.length := by
  induction ts generalizing s with
  | nil => rfl
  | cons t ts ih => simp [runSched, ih]

theorem tick_flush_ok_read (s : SysState) (d : Database) (t : Tick)
    (hd : s.db = some d) (hf : t.flushDisk = Disk.ok) :
    fsRead (autoHourlyBackup s t).1.fs dbPath = some (serialize d) := by
  obtain ⟨iso, fd, ad⟩ := t
  simp only at hf
  subst hf
  cases ad <;>
    simp [autoHourlyBackup, performBackupD, hd, fsRead_fsWrite_self,
      fsRead_fsWrite_ne _ _ _ _ (archivePath_ne_dbPath iso)]

theorem tick_fail_state (s : SysState) (d : Database) (t : Tick)
    (hd : s.db = some d)
    (h1 : t.flushDisk = Disk.ioerr ∨
      (t.flushDisk = Disk.ok ∧ t.archiveDisk = Disk.ioerr)) :
    (autoHourlyBackup s t).1.db = some d ∧
    ((autoHourlyBackup s t).2 = TickOutcome.flushFailed ∨
     (autoHourlyBackup s t).2 = TickOutcome.archiveFailed) := by
  obtain ⟨iso, fd, ad⟩ := t
  rcases h1 with h1 | ⟨h1, h2⟩
  · simp only at h1
    subst h1
    simp [autoHourlyBackup, performBackupD, hd]
  · simp only at h1 h2
    subst h1; subst h2
    simp [autoHourlyBackup, performBackupD, hd]

/-! ### Claim theorems -/

/-- Claim C1: for every store state reachable by a sequence of inserts,
writing the database image with performBackup and re-loading it the way
initializeDatabase does yields a store with exactly the same entries and
the same lastLogId, and an insert after the round-trip is assigned the
same id it would have been assigned before. -/
theorem C1_serialize_roundtrip (l : List (String × String)) (ts st : String) :
    ∃ d fs2 d2,
      (applyInserts (initState emptyFS) l).db = some d ∧
      performBackup (applyInserts (initState emptyFS) l) dbPath = .ok fs2 ∧
      initializeDatabase fs2 =
        .ok (d2, (applyInserts (initState emptyFS) l).lastLogId) ∧
      d2 = d ∧
      (insertRow d2 ts st).2 = (insertRow d ts st).2 := by
  have hinv : lastInv (applyInserts (initState emptyFS) l) = true :=
    applyInserts_lastInv l _ (by decide)
  set s := applyInserts (initState emptyFS) l with hs
  cases hdb : s.db with
  | none => rw [lastInv] at hinv; rw [hdb] at hinv; cases hinv
  | some d =>
      have hlast : s.lastLogId = if d.rows.isEmpty then 0 else maxIds d.rows := by
        rw [lastInv, hdb] at hinv
        exact of_decide_eq_true hinv
      refine ⟨d, fsWrite s.fs dbPath (serialize d), d, rfl, ?_, ?_, rfl, rfl⟩
      · simp [performBackup, hdb]
      · rw [initializeDatabase_of_serialized, hlast]

/-- Claim C2: the clear-logs handler removes all entries, resets the
lastLogId counter to 0, and synchronously flushes the now-empty store to
the canonical persistent file, so that loading that file immediately
afterwards yields a store with no entries and lastLogId 0. -/
theorem C2_clear_flushes (s : SysState) (d : Database) (h : s.db = some d) :
    clearLogs s =
      (⟨fsWrite s.fs dbPath (serialize ⟨[], d.seq⟩), some ⟨[], d.seq⟩, 0⟩,
        ⟨true, none⟩) ∧
    initializeDatabase (fsWrite s.fs dbPath (serialize ⟨[], d.seq⟩)) =
      .ok (⟨[], d.seq⟩, 0) := by
  constructor
  · simp [clearLogs, h, deleteAllRows]
  · rw [initializeDatabase_of_serialized]
    rfl

/-- Witness for C2 at the spec scenario state. -/
theorem C2_clear_flushes_witness :
    scenState.db = some ⟨[⟨1, tsA, "DOWN"⟩, ⟨2, tsB, "UP"⟩], 2⟩ ∧
    (clearLogs scenState =
      (⟨fsWrite scenState.fs dbPath (serialize ⟨[], 2⟩), some ⟨[], 2⟩, 0⟩,
        ⟨true, none⟩) ∧
     initializeDatabase (fsWrite scenState.fs dbPath (serialize ⟨[], 2⟩)) =
      .ok (⟨[], 2⟩, 0)) :=
  ⟨by decide, C2_clear_flushes scenState ⟨[⟨1, tsA, "DOWN"⟩, ⟨2, tsB, "UP"⟩], 2⟩ (by decide)⟩

/-- Claim C3 counterexample: after two inserts and a clear, lastLogId is 0,
yet the next insert is assigned id 3 (the AUTOINCREMENT sequence survives
the clear), not lastLogId + 1 = 1, so the claim as stated is false. -/
theorem C3_counterexample :
    ((clearLogs scenState).1).lastLogId = 0 ∧
    (dbOf (insertLog (clearLogs scenState).1 "2024-01-01T01:00:00Z" "UP").1).rows.map
      LogEntry.id = [3] ∧
    (3 : Nat) ≠ 0 + 1 := by decide

/-- Claim C3 amended: insert appends a new entry whose id is one greater
than the largest id ever assigned (tracked by the AUTOINCREMENT sequence,
which a clear does not reset), updates lastLogId to that id, and returns
only a success flag — not the id. -/
theorem C3_insert_next_id (s : SysState) (d : Database) (h : s.db = some d)
    (ts st : String) :
    (insertLog s ts st).1.db = some ⟨d.rows ++ [⟨nextId d, ts, st⟩], nextId d⟩ ∧
    (insertLog s ts st).1.lastLogId = nextId d ∧
    (insertLog s ts st).2 = ⟨true, none⟩ := by
  refine ⟨?_, ?_, ?_⟩
  · simp [insertLog, h, insertRow]
  · have hmax : maxIds (d.rows ++ [⟨nextId d, ts, st⟩]) = nextId d := by
      rw [maxIds_append_single]
      simp [nextId]
      omega
    simp [insertLog, h, insertRow, hmax]
  · simp [insertLog, h]

/-- Witness for the amended C3 at the state just after a clear. -/
theorem C3_insert_next_id_witness :
    (clearLogs scenState).1.db = some ⟨[], 2⟩ ∧
    ((insertLog (clearLogs scenState).1 "2024-01-01T01:00:00Z" "UP").1.db =
        some ⟨([] : List LogEntry) ++ [⟨nextId ⟨[], 2⟩, "2024-01-01T01:00:00Z", "UP"⟩],
          nextId ⟨[], 2⟩⟩ ∧
     (insertLog (clearLogs scenState).1 "2024-01-01T01:00:00Z" "UP").1.lastLogId =
        nextId ⟨[], 2⟩ ∧
     (insertLog (clearLogs scenState).1 "2024-01-01T01:00:00Z" "UP").2 = ⟨true, none⟩) :=
  ⟨by decide,
   C3_insert_next_id (clearLogs scenState).1 ⟨[], 2⟩ (by decide)
     "2024-01-01T01:00:00Z" "UP"⟩

/-- Claim C4: along any sequence of inserts, clears and flush-then-reload
cycles from a state satisfying the AUTOINCREMENT invariant, the ids
assigned by insert are strictly increasing (hence never assigned twice),
and every assigned id is strictly greater than every id present in the
starting store. -/
theorem C4_ids_monotone (s : SysState) (ops : List Op) (h : dbInv s = true) :
    (runOps s ops).2.Pairwise (· < ·) ∧
    ∀ a ∈ (runOps s ops).2, ∀ d, s.db = some d → ∀ e ∈ d.rows, e.id < a := by
  obtain ⟨_, _, hasg, hpw⟩ := runOps_spec ops s h
  refine ⟨hpw, ?_⟩
  intro a ha d hdb e he
  have h1 := (hasg a ha).1
  have h2 : e.id ≤ maxIds d.rows := id_le_maxIds he
  have h3 : maxIds d.rows ≤ d.seq := by
    rw [dbInv, hdb] at h
    exact of_decide_eq_true h
  have h4 : seqOf s = d.seq := by simp [seqOf, hdb]
  omega

/-- Witness for C4 on a load-insert-flush-reload-insert trace. -/
theorem C4_ids_monotone_witness :
    dbInv (initState emptyFS) = true ∧
    ((runOps (initState emptyFS)
        [Op.ins tsA "DOWN", Op.flushReload, Op.ins tsB "UP"]).2.Pairwise (· < ·) ∧
     ∀ a ∈ (runOps (initState emptyFS)
        [Op.ins tsA "DOWN", Op.flushReload, Op.ins tsB "UP"]).2,
       ∀ d, (initState emptyFS).db = some d → ∀ e ∈ d.rows, e.id < a) :=
  ⟨by decide,
   C4_ids_monotone (initState emptyFS)
     [Op.ins tsA "DOWN", Op.flushReload, Op.ins tsB "UP"] (by decide)⟩

/-- Claim C5: when the canonical persistent file is absent at startup, the
load produces a valid empty store (no entries, lastLogId 0) without error;
and only this absent case is treated as starting empty — a present but
malformed file instead raises an error that escapes the load path. -/
theorem C5_absent_starts_empty (fs : FS) :
    (fsRead fs dbPath = none →
      initializeDatabase fs = .ok (Database.fresh, 0)) ∧
    (∀ b, fsRead fs dbPath = some b → deserialize b = none →
      initializeDatabase fs = .error "file is not a database") := by
  constructor
  · intro h
    simp [initializeDatabase, h]
  · intro b h1 h2
    simp [initializeDatabase, h1, h2]

/-- Witness for C5 at the empty filesystem and at a corrupt file. -/
theorem C5_absent_starts_empty_witness :
    (fsRead emptyFS dbPath = none ∧
      initializeDatabase emptyFS = .ok (Database.fresh, 0)) ∧
    (fsRead corruptFS dbPath = some corruptBuf ∧
      deserialize corruptBuf = none ∧
      initializeDatabase corruptFS = .error "file is not a database") :=
  ⟨⟨rfl, (C5_absent_starts_empty emptyFS).1 rfl⟩,
   ⟨by decide, by decide,
    (C5_absent_starts_empty corruptFS).2 corruptBuf (by decide) (by decide)⟩⟩

/-- Claim C9: a successful insert leaves the filesystem — in particular
the bytes of the canonical persistent file — completely unchanged; only
the in-memory store and lastLogId are mutated. -/
theorem C9_insert_frame (s : SysState) (ts st : String) :
    (insertLog s ts st).1.fs = s.fs ∧
    fsRead (insertLog s ts st).1.fs dbPath = fsRead s.fs dbPath := by
  cases h : s.db <;> simp [insertLog, h]

/-- Claim C10 counterexample: at a concrete corrupt canonical file the
load does not produce the fresh empty store — the decode error escapes
the load path and startup aborts (app.quit), so the claim's silent
fall-back-to-empty is false. -/
theorem C10_counterexample :
    fsRead corruptFS dbPath = some corruptBuf ∧
    deserialize corruptBuf = none ∧
    initializeDatabase corruptFS ≠ .ok (Database.fresh, 0) ∧
    appStartup corruptFS = none := by
  have hc : initializeDatabase corruptFS = .error "file is not a database" := by
    simp [initializeDatabase, corruptFS, corruptBuf, fsRead_fsWrite_self,
      deserialize]
  refine ⟨by decide, by decide, ?_, ?_⟩
  · rw [hc]
    intro h
    cases h
  · simp [appStartup, hc]

/-- Claim C10 amended: when the persistent file exists but its bytes are
malformed, the decode error is NOT caught by the load path — the database
constructor stores the bytes without validating them, so the error
surfaces at the CREATE TABLE statement outside the try/catch — it escapes
initializeDatabase, and the catch in app.whenReady aborts startup: the
code resolves the spec's open question in favor of a fatal error, not a
fall-back to an empty store. -/
theorem C10_corrupt_aborts (fs : FS) (b : Buf)
    (h1 : fsRead fs dbPath = some b) (h2 : deserialize b = none) :
    initializeDatabase fs = .error "file is not a database" ∧
    appStartup fs = none := by
  have he : initializeDatabase fs = .error "file is not a database" := by
    simp [initializeDatabase, h1, h2]
  exact ⟨he, by simp [appStartup, he]⟩

/-- Witness for the amended C10 at a concrete corrupt file. -/
theorem C10_corrupt_aborts_witness :
    fsRead corruptFS dbPath = some corruptBuf ∧ deserialize corruptBuf = none ∧
    (initializeDatabase corruptFS = .error "file is not a database" ∧
     appStartup corruptFS = none) :=
  ⟨by decide, by decide,
   C10_corrupt_aborts corruptFS corruptBuf (by decide) (by decide)⟩

/-- Claim C6 counterexample: two successful archive calls whose capture
times fall in the same millisecond (here literally the same time, with an
insert in between) leave a filesystem with only ONE archive file, holding
the second snapshot — the first archive was silently overwritten, so the
claim as stated is false. -/
theorem C6_counterexample :
    (autoHourlyBackup arcS1 (Tick.good isoT)).2 =
      TickOutcome.archived (archiveFileName isoT) ∧
    (autoHourlyBackup arcS3 (Tick.good isoT)).2 =
      TickOutcome.archived (archiveFileName isoT) ∧
    serialize (dbOf arcS1) ≠ serialize (dbOf arcS3) ∧
    (fsPaths arcS4.fs).length = 2 ∧
    fsRead arcS4.fs (archivePath isoT) = some (serialize (dbOf arcS3)) := by decide

/-- Claim C6 amended: the archive path embeds the capture timestamp at
millisecond granularity, so two archive calls whose formatted timestamps
differ write two distinct archive files, both retained with their
snapshots; but two calls within the same granularity write the same path
and the second silently overwrites the first. -/
theorem C6_archive_distinct (s : SysState) (d : Database) (t1 t2 : String)
    (hd : s.db = some d) (hne : isoSafe t1 ≠ isoSafe t2) :
    archivePath t1 ≠ archivePath t2 ∧
    fsRead (autoHourlyBackup (autoHourlyBackup s (Tick.good t1)).1
        (Tick.good t2)).1.fs (archivePath t1) = some (serialize d) ∧
    fsRead (autoHourlyBackup (autoHourlyBackup s (Tick.good t1)).1
        (Tick.good t2)).1.fs (archivePath t2) = some (serialize d) := by
  have hp : archivePath t1 ≠ archivePath t2 := fun h => hne (archivePath_inj h)
  refine ⟨hp, ?_, ?_⟩ <;>
    simp [autoHourlyBackup, performBackupD, Tick.good, hd,
      fsRead_fsWrite_self,
      fsRead_fsWrite_ne _ _ _ _ (Ne.symm hp),
      fsRead_fsWrite_ne _ _ _ _ (Ne.symm (archivePath_ne_dbPath t1))]

/-- Witness for the amended C6 at two distinct capture times. -/
theorem C6_archive_distinct_witness :
    arcS1.db = some ⟨[⟨1, tsA, "DOWN"⟩], 1⟩ ∧
    isoSafe isoT ≠ isoSafe "2024-01-01T03:00:00.000Z" ∧
    (archivePath isoT ≠ archivePath "2024-01-01T03:00:00.000Z" ∧
     fsRead (autoHourlyBackup (autoHourlyBackup arcS1 (Tick.good isoT)).1
        (Tick.good "2024-01-01T03:00:00.000Z")).1.fs (archivePath isoT) =
       some (serialize ⟨[⟨1, tsA, "DOWN"⟩], 1⟩) ∧
     fsRead (autoHourlyBackup (autoHourlyBackup arcS1 (Tick.good isoT)).1
        (Tick.good "2024-01-01T03:00:00.000Z")).1.fs
        (archivePath "2024-01-01T03:00:00.000Z") =
       some (serialize ⟨[⟨1, tsA, "DOWN"⟩], 1⟩)) :=
  ⟨by decide, by decide,
   C6_archive_distinct arcS1 ⟨[⟨1, tsA, "DOWN"⟩], 1⟩ isoT
     "2024-01-01T03:00:00.000Z" (by decide) (by decide)⟩

/-- Claim C7: a failing flush or archive step in one scheduled tick yields
a reported failure outcome but does not stop the scheduler: every tick in
the schedule produces an outcome, and a following tick with a healthy disk
flushes the current database to the canonical file as usual. -/
theorem C7_scheduler_continues (s : SysState) (d : Database) (t1 t2 : Tick)
    (hd : s.db = some d)
    (h1 : t1.flushDisk = Disk.ioerr ∨
      (t1.flushDisk = Disk.ok ∧ t1.archiveDisk = Disk.ioerr))
    (h2 : t2.flushDisk = Disk.ok) :
    (∀ ts : List Tick, ((runSched s ts).2).length = ts.length) ∧
    ((autoHourlyBackup s t1).2 = TickOutcome.flushFailed ∨
     (autoHourlyBackup s t1).2 = TickOutcome.archiveFailed) ∧
    fsRead (runSched s [t1, t2]).1.fs dbPath = some (serialize d) := by
  obtain ⟨hdb1, hout1⟩ := tick_fail_state s d t1 hd h1
  refine ⟨fun ts => runSched_length ts s, hout1, ?_⟩
  have hr : (runSched s [t1, t2]).1 =
      (autoHourlyBackup (autoHourlyBackup s t1).1 t2).1 := by
    simp [runSched]
  rw [hr]
  exact tick_flush_ok_read _ d t2 hdb1 h2

/-- Witness for C7: a tick with a broken disk followed by a healthy one. -/
theorem C7_scheduler_continues_witness :
    arcS1.db = some ⟨[⟨1, tsA, "DOWN"⟩], 1⟩ ∧
    ((⟨isoT, Disk.ioerr, Disk.ok⟩ : Tick).flushDisk = Disk.ioerr ∨
      ((⟨isoT, Disk.ioerr, Disk.ok⟩ : Tick).flushDisk = Disk.ok ∧
       (⟨isoT, Disk.ioerr, Disk.ok⟩ : Tick).archiveDisk = Disk.ioerr)) ∧
    (⟨isoT, Disk.ok, Disk.ok⟩ : Tick).flushDisk = Disk.ok ∧
    ((∀ ts : List Tick, ((runSched arcS1 ts).2).length = ts.length) ∧
     ((autoHourlyBackup arcS1 ⟨isoT, Disk.ioerr, Disk.ok⟩).2 =
        TickOutcome.flushFailed ∨
      (autoHourlyBackup arcS1 ⟨isoT, Disk.ioerr, Disk.ok⟩).2 =
        TickOutcome.archiveFailed) ∧
     fsRead (runSched arcS1 [⟨isoT, Disk.ioerr, Disk.ok⟩, ⟨isoT, Disk.ok, Disk.ok⟩]).1.fs
        dbPath = some (serialize ⟨[⟨1, tsA, "DOWN"⟩], 1⟩)) :=
  ⟨by decide, Or.inl rfl, rfl,
   C7_scheduler_continues arcS1 ⟨[⟨1, tsA, "DOWN"⟩], 1⟩
     ⟨isoT, Disk.ioerr, Disk.ok⟩ ⟨isoT, Disk.ok, Disk.ok⟩
     (by decide) (Or.inl rfl) rfl⟩

/-- Claim C8: in the spec scenario — inserting (tsA, DOWN) then (tsB, UP)
into a fresh empty store — the descending query returns the UP entry with
id 2 before the DOWN entry with id 1, and the CSV export is the header row
followed by the rows in ascending id order with exactly the timestamp
field double-quoted. -/
theorem C8_scenario :
    loadLogs scenState = [⟨2, tsB, "UP"⟩, ⟨1, tsA, "DOWN"⟩] ∧
    exportCsvContent (dbOf scenState) =
      some ("ID,Timestamp_ISO,Status\n1,\"2024-01-01T00:00:00Z\",DOWN\n2,\"2024-01-01T00:05:00Z\",UP") := by
  decide
